import Mathlib

/-!
Verification of the `MP4H264Video` class in `src/pynwb/ndx_mp4/mp4.py`
(repository ndx-mp4), as a shallow embedding in Lean 4.

Modelling conventions, in one place:

* numpy arrays (`np.ndarray`) are modelled by `NpArray`: a dtype tag, a
  shape (list of dimension sizes) and the flattened element data as a list
  of naturals (the elements of a uint8 array are its byte samples; value
  ranges play no role in any claim, so no `% 256` normalisation is done).
* byte streams (`bytes`) are `List Nat`.
* the external video codec library (OpenCV / cv2) is NOT part of this
  repository; it is modelled abstractly by a `Codec`: `encodeVideo` stands
  for the effect of `cv2.VideoWriter(...)` + the per-frame `writer.write`
  calls + `writer.release()` (the arguments are the fps, the frame size
  tuple `(width, height)`, the `isColor` flag and the list of frames
  written, and the result is the content of the produced file), and
  `decodeVideo` stands for the `cv2.VideoCapture` + `cap.read()` loop that
  collects every frame of a byte stream until `ret` is false, in order.
* the filesystem is a partial map from paths to byte streams (`FS`);
  Python's `open(path).read()` on a missing path raises, modelled as an
  error result.
* observable side effects of a call (temporary directory creation, codec
  writer open/close, per-frame writes, file opens) are returned as an
  explicit `Event` trace alongside the result, in the order the Python
  statements execute.
* a Python `ValueError` is an `Except.error` carrying a `VErr` tag naming
  the raising check; `warnings.warn` calls are returned as a list of
  warning message strings.
* `fps` is a Python float only carried around, never computed with, so it
  is modelled as a rational number.
-/

/-- numpy dtypes, as far as the code distinguishes them: `mp4.py` only ever
compares a dtype against `np.uint8`. -/
inductive Dtype where
  | uint8 : Dtype
  | float64 : Dtype
  | other : Dtype
deriving DecidableEq, Repr

/-- One video frame as handed to `writer.write` / returned by `cap.read()`:
its shape and its flattened pixel data. -/
structure Frame where
  shape : List Nat
  pixels : List Nat
deriving DecidableEq, Repr

/-- A numpy array: dtype tag, shape, flattened data (row-major). -/
structure NpArray where
  dtype : Dtype
  shape : List Nat
  data : List Nat
deriving DecidableEq, Repr

/-- `array.ndim`. -/
def NpArray.ndim (a : NpArray) : Nat := a.shape.length

/-- `array.shape[0]`: the number of frames. -/
def NpArray.frameCount (a : NpArray) : Nat := a.shape.headD 0

/-- The shape of one frame `array[i]`: the shape with the first axis dropped. -/
def NpArray.frameShape (a : NpArray) : List Nat := a.shape.tail

/-- The number of scalar elements of one frame. -/
def NpArray.frameSize (a : NpArray) : Nat := a.frameShape.prod

/-- `array[i]`: the i-th frame, i.e. the i-th slice along the first axis of
the row-major data. -/
def NpArray.frameAt (a : NpArray) (i : Nat) : Frame :=
  ⟨a.frameShape, (a.data.drop (i * a.frameSize)).take a.frameSize⟩

/-- `[array[i] for i in range(array.shape[0])]`, in increasing index order. -/
def NpArray.framesOf (a : NpArray) : List Frame :=
  (List.range a.frameCount).map a.frameAt

/-- `np.array(frames, dtype=np.uint8)` for a list of equally-shaped frames:
stacking along a new leading axis. `np.array([], dtype=np.uint8)` is the
empty 1-dimensional array, of shape `(0,)`. (Ragged frame lists, which make
numpy raise, do not arise: the frames come from one capture loop.) -/
def npStack (frames : List Frame) : NpArray :=
  match frames with
  | [] => ⟨Dtype.uint8, [0], []⟩
  | f :: _ => ⟨Dtype.uint8, frames.length :: f.shape, (frames.map Frame.pixels).flatten⟩

/-- Byte streams (`bytes`). -/
abbrev Bytes := List Nat

/-- The external cv2 codec, abstractly: what the repository's code observes
of it. `encodeVideo fps (width, height) isColor frames` is the file content
produced by a `cv2.VideoWriter` opened with those parameters after writing
`frames` in order and releasing; `decodeVideo bytes` is the list of frames a
`cv2.VideoCapture` + `cap.read()` loop yields on those bytes, in order. -/
structure Codec where
  encodeVideo : Rat → Nat × Nat → Bool → List Frame → Bytes
  decodeVideo : Bytes → List Frame

/-- The filesystem: a partial map from paths to file contents. -/
def FS : Type := String → Option Bytes

/-- Tags for the `ValueError`s (and the i/o error) the methods can raise,
one per raising site in `mp4.py`. -/
inductive VErr where
  /-- "MP4H264VideoData only supports uint8 arrays" -/
  | dtypeNotUint8 : VErr
  /-- "MP4H264VideoData only supports 3D or 4D arrays" -/
  | ndimNot3Or4 : VErr
  /-- "File path '...' must be a valid MP4 file with extension '.mp4'." -/
  | notMp4 (path : String) : VErr
  /-- Python `FileNotFoundError` from `open(path, 'rb')`. -/
  | fileNotFound (path : String) : VErr
  /-- numpy error from `out[...] = ret` when the shapes do not agree
  (broadcasting of unequal shapes is out of the model's scope). -/
  | outShapeMismatch : VErr
deriving DecidableEq, Repr

/-- Observable side effects, in program order. -/
inductive Event where
  /-- `tempfile.TemporaryDirectory()` entered. -/
  | tmpdirCreated : Event
  /-- `cv2.VideoWriter(path, fourcc, fps, (width, height), isColor=...)`. -/
  | writerOpened (fps : Rat) (frameSize : Nat × Nat) (isColor : Bool) : Event
  /-- `writer.write(frame)`. -/
  | frameWritten (f : Frame) : Event
  /-- `writer.release()`. -/
  | writerReleased : Event
  /-- `open(path, 'rb')`. -/
  | fileOpenedRead (path : String) : Event
  /-- `open(path, 'wb')`. -/
  | fileOpenedWrite (path : String) : Event
deriving DecidableEq, Repr

/-- Python's `str.endswith(suffix)`, on the strings' character lists. -/
def pyEndsWith (s suffix : String) : Bool := suffix.data.isSuffixOf s.data

/-- The instance state of `MP4H264Video` relevant to the claims: the docval
fields `name`, `shape`, `fps` and the stored scalar dataset of bytes
`data`. -/
structure MP4H264Video where
  name : String
  shape : List Nat
  fps : Rat
  data : Bytes
deriving DecidableEq, Repr

/-- `MP4H264Video.read_from_file` (mp4.py lines 75-93): raise `ValueError`
when the path does not end in `.mp4`, otherwise open the file and return its
bytes. The event list records which files were opened. -/
def MP4H264Video.read_from_file (fs : FS) (file_path : String) :
    Except VErr Bytes × List Event :=
  if ¬ pyEndsWith file_path ".mp4" then
    (Except.error (VErr.notMp4 file_path), [])
  else
    match fs file_path with
    | some b => (Except.ok b, [Event.fileOpenedRead file_path])
    | none => (Except.error (VErr.fileNotFound file_path), [Event.fileOpenedRead file_path])

/-- The message of the warning `write_to_file` issues for a path without the
`.mp4` extension (mp4.py line 105). -/
def mp4SuffixWarning (file_path : String) : String :=
  "File path " ++ file_path ++ " does not end with .mp4. This may cause issues with some video players."

/-- `MP4H264Video.write_to_file` (mp4.py lines 95-107): warn (only) when the
path does not end in `.mp4`, then write `self.data` to the path regardless.
Returns the updated filesystem and the warnings issued. -/
def MP4H264Video.write_to_file (v : MP4H264Video) (fs : FS) (file_path : String) :
    FS × List String :=
  (fun p => if p = file_path then some v.data else fs p,
   if ¬ pyEndsWith file_path ".mp4" then [mp4SuffixWarning file_path] else [])

/-- The path of the temporary output file `encode` stages through
(`f'{tmpdir}/output.mp4'`, with the abstract temporary directory named
`tmpdir`). -/
def tmpOutputPath : String := "tmpdir/output.mp4"

/-- The path of the temporary input file `decode` stages through
(`f'{tmpdir}/input.mp4'`). -/
def tmpInputPath : String := "tmpdir/input.mp4"

/-- `MP4H264Video.encode` (mp4.py lines 109-151): validate dtype, validate
ndim, derive `is_color` from ndim, then inside a fresh temporary directory
open a `cv2.VideoWriter` at `(array.shape[2], array.shape[1])`, write the
`array.shape[0]` frames in increasing index order, release the writer, and
return the bytes of the temporary file via `read_from_file`. The codec's
effect (writer + release = file content) is `c.encodeVideo`. -/
def MP4H264Video.encode (c : Codec) (array : NpArray) (fps : Rat) :
    Except VErr Bytes × List Event :=
  if array.dtype ≠ Dtype.uint8 then
    (Except.error VErr.dtypeNotUint8, [])
  else if array.ndim ≠ 3 ∧ array.ndim ≠ 4 then
    (Except.error VErr.ndimNot3Or4, [])
  else
    let is_color : Bool := if array.ndim = 3 then false else true
    let width := array.shape.getD 2 0
    let height := array.shape.getD 1 0
    let fileBytes := c.encodeVideo fps (width, height) is_color array.framesOf
    let tmpfs : FS := fun p => if p = tmpOutputPath then some fileBytes else none
    let rd := MP4H264Video.read_from_file tmpfs tmpOutputPath
    (rd.1,
      [Event.tmpdirCreated, Event.writerOpened fps (width, height) is_color]
        ++ array.framesOf.map Event.frameWritten
        ++ [Event.writerReleased]
        ++ rd.2)

/-- `MP4H264Video.decode` (mp4.py lines 153-186): inside a fresh temporary
directory write `self.data` to a temporary `.mp4` file via `write_to_file`,
run the capture loop on that file's content (collecting frames until `ret`
is false, in order — `c.decodeVideo`), stack the frames with
`np.array(frames, dtype=np.uint8)`, and either return that array, or, when
`out` is given, assign into `out` element-wise (`out[...] = ret`) and return
`out` itself. The returned `Bool` is true exactly when the returned array is
the caller's `out` buffer. -/
def MP4H264Video.decode (c : Codec) (v : MP4H264Video) (out : Option NpArray) :
    Except VErr (NpArray × Bool) × List Event :=
  let emptyfs : FS := fun _ => none
  let wr := v.write_to_file emptyfs tmpInputPath
  let fileBytes := (wr.1 tmpInputPath).getD []
  let frames := c.decodeVideo fileBytes
  let ret := npStack frames
  let trace := [Event.tmpdirCreated, Event.fileOpenedWrite tmpInputPath,
                Event.fileOpenedRead tmpInputPath]
  match out with
  | none => (Except.ok (ret, false), trace)
  | some o =>
      if o.shape = ret.shape then
        (Except.ok (⟨o.dtype, o.shape, ret.data⟩, true), trace)
      else
        (Except.error VErr.outShapeMismatch, trace)

/-- Error tags for `MP4H264Video.__init__`, one per raising site it can
reach: its own "exactly one of ..." check, or a `ValueError` propagated from
`encode` or `read_from_file`. -/
inductive InitErr where
  /-- "Exactly one of 'data', 'data_array', or 'data_file' must be specified" -/
  | exactlyOneRequired : InitErr
  | fromEncode (e : VErr) : InitErr
  | fromReadFile (e : VErr) : InitErr
  /-- unreachable: `data` still `None` after the exactly-one check passed. -/
  | dataNone : InitErr
deriving DecidableEq, Repr

/-- `sum([data is not None, data_array is not None, data_file is not None])`. -/
def countProvided (data : Option Bytes) (data_array : Option NpArray)
    (data_file : Option String) : Nat :=
  (if data.isSome then 1 else 0) + (if data_array.isSome then 1 else 0)
    + (if data_file.isSome then 1 else 0)

/-- `MP4H264Video.__init__` (mp4.py lines 59-73): raise unless exactly one
of `data`, `data_array`, `data_file` is given; then, in source order,
replace `data` by `encode(data_array, fps)` when `data_array` is given and
by `read_from_file(data_file)` when `data_file` is given; store the result
as the instance's `data`. Errors from the two helpers propagate. -/
def MP4H264Video.init (c : Codec) (fs : FS) (name : String) (shape : List Nat)
    (fps : Rat) (data : Option Bytes) (data_array : Option NpArray)
    (data_file : Option String) : Except InitErr MP4H264Video :=
  if countProvided data data_array data_file ≠ 1 then
    Except.error InitErr.exactlyOneRequired
  else
    let afterArray : Except InitErr (Option Bytes) :=
      match data_array with
      | some a =>
          match (MP4H264Video.encode c a fps).1 with
          | Except.ok b => Except.ok (some b)
          | Except.error e => Except.error (InitErr.fromEncode e)
      | none => Except.ok data
    let afterFile : Except InitErr (Option Bytes) :=
      match afterArray with
      | Except.error e => Except.error e
      | Except.ok d =>
          match data_file with
          | some f =>
              match (MP4H264Video.read_from_file fs f).1 with
              | Except.ok b => Except.ok (some b)
              | Except.error e => Except.error (InitErr.fromReadFile e)
          | none => Except.ok d
    match afterFile with
    | Except.error e => Except.error e
    | Except.ok (some d) => Except.ok ⟨name, shape, fps, d⟩
    | Except.ok none => Except.error InitErr.dataNone

/-- Selector for `Event.writerOpened` events in a trace: true exactly on a
codec-writer opening. -/
def Event.isWriterOpened : Event → Bool
  | Event.writerOpened _ _ _ => true
  | _ => false

/-- A concrete codec for witnesses: the writer serialises a frame count
followed by the flattened pixels, and the capture loop always yields one
2x2 grayscale frame. -/
def demoCodec : Codec :=
  ⟨fun _ _ _ frames => frames.length :: (frames.map Frame.pixels).flatten,
   fun _ => [⟨[2, 2], [10, 20, 30, 40]⟩]⟩

/-- A concrete valid 3-dimensional uint8 array: one 2x2 grayscale frame. -/
def w1Array : NpArray := ⟨Dtype.uint8, [1, 2, 2], [10, 20, 30, 40]⟩

/-- A concrete valid 4-dimensional uint8 array: one 1x1 color frame. -/
def w4Array : NpArray := ⟨Dtype.uint8, [1, 1, 1, 3], [1, 2, 3]⟩

/-- A concrete instance holding three bytes of stored data. -/
def demoVideo : MP4H264Video := ⟨"demo", [1, 2, 2], 30, [4, 5, 6]⟩

/-- A concrete codec whose writer produces an empty file and whose capture
loop yields no frame — in particular it is faithful on zero-frame videos. -/
def cexCodec : Codec := ⟨fun _ _ _ _ => [], fun _ => []⟩

/-- A concrete array of non-uint8 dtype (shape is otherwise valid). -/
def cexFloatArray : NpArray := ⟨Dtype.float64, [1, 1, 1], [0]⟩

/-- A concrete valid 4-dimensional uint8 array with zero frames. -/
def zeroFrameArray : NpArray := ⟨Dtype.uint8, [0, 2, 2, 3], []⟩

/-- The temporary output path used by `encode` has the `.mp4` extension, so
the `read_from_file` call inside `encode` never raises the extension error. -/
theorem tmpOutputPath_endsWith : pyEndsWith tmpOutputPath ".mp4" = true := by decide

/-- The temporary input path used by `decode` has the `.mp4` extension, so
the `write_to_file` call inside `decode` never warns. -/
theorem tmpInputPath_endsWith : pyEndsWith tmpInputPath ".mp4" = true := by decide

/-- Helper: on a uint8 array of 3 or 4 dimensions, `encode` runs its whole
body: writer opened at `(shape[2], shape[1])` with `is_color` from the
dimensionality, all frames written in order, writer released, and the
resulting temporary file read back and returned. -/
theorem encode_valid_eq (c : Codec) (a : NpArray) (fps : Rat)
    (h1 : a.dtype = Dtype.uint8) (h2 : a.ndim = 3 ∨ a.ndim = 4) :
    MP4H264Video.encode c a fps =
      (Except.ok (c.encodeVideo fps (a.shape.getD 2 0, a.shape.getD 1 0)
          (if a.ndim = 3 then false else true) a.framesOf),
       [Event.tmpdirCreated,
        Event.writerOpened fps (a.shape.getD 2 0, a.shape.getD 1 0)
          (if a.ndim = 3 then false else true)]
         ++ a.framesOf.map Event.frameWritten
         ++ [Event.writerReleased, Event.fileOpenedRead tmpOutputPath]) := by
  unfold MP4H264Video.encode
  rw [if_neg, if_neg]
  · simp [MP4H264Video.read_from_file, tmpOutputPath_endsWith]
  · rcases h2 with h | h <;> simp [h]
  · simp [h1]

/-- Helper: `np.array(frames, dtype=np.uint8)` always yields dtype uint8. -/
theorem npStack_dtype (frames : List Frame) : (npStack frames).dtype = Dtype.uint8 := by
  cases frames <;> rfl

/-- Helper: an array has `shape[0]` frames. -/
theorem framesOf_length (a : NpArray) : a.framesOf.length = a.frameCount := by
  simp [NpArray.framesOf]

/-- Helper: stacking the frames of an array with at least one frame restores
the array's shape. -/
theorem npStack_framesOf_shape (a : NpArray) (hs : a.shape ≠ [])
    (h : 1 ≤ a.frameCount) : (npStack a.framesOf).shape = a.shape := by
  obtain ⟨n, hn⟩ : ∃ n, a.frameCount = n + 1 := ⟨a.frameCount - 1, by omega⟩
  have hfr : a.framesOf = a.frameAt 0 :: (List.range n).map (fun i => a.frameAt (i + 1)) := by
    simp [NpArray.framesOf, hn, List.range_succ_eq_map, List.map_map]
  obtain ⟨hd, tl, hsh⟩ : ∃ hd tl, a.shape = hd :: tl := by
    cases hshape : a.shape with
    | nil => exact absurd hshape hs
    | cons x xs => exact ⟨x, xs, rfl⟩
  have hcount : a.frameCount = hd := by simp [NpArray.frameCount, hsh]
  rw [hfr]
  simp [npStack, NpArray.frameAt, NpArray.frameShape, hsh, ← hfr, framesOf_length, hcount]
  omega

/-- C1 (amended): for every uint8 array of 3 or 4 dimensions with at least
one frame, and every fps, if the codec's capture loop yields back exactly
the frames the codec writer was given for this video, then `decode` applied
to an `MP4H264Video` constructed from the bytes `encode` produced returns a
uint8 array of the same shape as the original array. (The zero-frame case
fails: `np.array([])` has shape `(0,)` — see the counterexample.) -/
theorem encode_decode_shape_roundtrip (c : Codec) (fs : FS) (a : NpArray) (fps : Rat)
    (h1 : a.dtype = Dtype.uint8) (h2 : a.ndim = 3 ∨ a.ndim = 4)
    (h3 : 1 ≤ a.frameCount)
    (hc : c.decodeVideo (c.encodeVideo fps (a.shape.getD 2 0, a.shape.getD 1 0)
            (if a.ndim = 3 then false else true) a.framesOf) = a.framesOf) :
    ∃ b v, (MP4H264Video.encode c a fps).1 = Except.ok b ∧
      MP4H264Video.init c fs "video" a.shape fps (some b) none none = Except.ok v ∧
      ∃ r, (MP4H264Video.decode c v none).1 = Except.ok (r, false) ∧
        r.shape = a.shape ∧ r.dtype = Dtype.uint8 := by
  have hs : a.shape ≠ [] := by
    intro hnil
    rcases h2 with h | h <;> simp [NpArray.ndim, hnil] at h
  set b := c.encodeVideo fps (a.shape.getD 2 0, a.shape.getD 1 0)
      (if a.ndim = 3 then false else true) a.framesOf with hb
  refine ⟨b, ⟨"video", a.shape, fps, b⟩, ?_, ?_, ?_⟩
  · rw [encode_valid_eq c a fps h1 h2]
  · simp [MP4H264Video.init, countProvided]
  · refine ⟨npStack a.framesOf, ?_, npStack_framesOf_shape a hs h3, npStack_dtype _⟩
    simp [MP4H264Video.decode, MP4H264Video.write_to_file, hc]

/-- Witness for C1: the amended round trip at a concrete codec faithful at
the input and a concrete one-frame 3-dimensional array. -/
theorem encode_decode_shape_roundtrip_witness :
    ∃ b v, (MP4H264Video.encode demoCodec w1Array 30).1 = Except.ok b ∧
      MP4H264Video.init demoCodec (fun _ => none) "video" w1Array.shape 30
          (some b) none none = Except.ok v ∧
      ∃ r, (MP4H264Video.decode demoCodec v none).1 = Except.ok (r, false) ∧
        r.shape = w1Array.shape ∧ r.dtype = Dtype.uint8 :=
  encode_decode_shape_roundtrip demoCodec (fun _ => none) w1Array 30 rfl (Or.inl rfl)
    (by decide) (by decide)

/-- Counterexample to C1 as stated: a valid uint8 array of shape
`(0, 2, 2, 3)` under a codec that is faithful on it (the capture loop
returns exactly the zero frames written). `decode` of the encoded video is
`np.array([], dtype=np.uint8)`, of shape `(0,)`, not `(0, 2, 2, 3)`. -/
theorem decode_encode_zero_frames_cex :
    zeroFrameArray.dtype = Dtype.uint8 ∧ zeroFrameArray.ndim = 4 ∧
    cexCodec.decodeVideo (cexCodec.encodeVideo 30 (2, 2) true zeroFrameArray.framesOf)
      = zeroFrameArray.framesOf ∧
    (MP4H264Video.encode cexCodec zeroFrameArray 30).1 = Except.ok [] ∧
    MP4H264Video.init cexCodec (fun _ => none) "video" [0, 2, 2, 3] 30
        (some []) none none = Except.ok ⟨"video", [0, 2, 2, 3], 30, []⟩ ∧
    (MP4H264Video.decode cexCodec ⟨"video", [0, 2, 2, 3], 30, []⟩ none).1
      = Except.ok (⟨Dtype.uint8, [0], []⟩, false) ∧
    ¬ ([0] : List Nat) = [0, 2, 2, 3] := by
  refine ⟨rfl, rfl, rfl, ?_, ?_, ?_, by decide⟩ <;> rfl

/-- C2: `encode` raises `ValueError` if and only if the array's dtype is
not uint8 or its number of dimensions is not 3 or 4; every array passing
both checks yields an encoded byte stream without raising. -/
theorem encode_validation_iff (c : Codec) (a : NpArray) (fps : Rat) :
    ((∃ e, (MP4H264Video.encode c a fps).1 = Except.error e) ↔
      (a.dtype ≠ Dtype.uint8 ∨ (a.ndim ≠ 3 ∧ a.ndim ≠ 4)))
    ∧ ((a.dtype = Dtype.uint8 ∧ (a.ndim = 3 ∨ a.ndim = 4)) →
        ∃ b, (MP4H264Video.encode c a fps).1 = Except.ok b) := by
  constructor
  · by_cases h1 : a.dtype = Dtype.uint8
    · by_cases h2 : a.ndim = 3 ∨ a.ndim = 4
      · rw [encode_valid_eq c a fps h1 h2]
        simp [h1, h2]
        tauto
      · push_neg at h2
        unfold MP4H264Video.encode
        rw [if_neg (by simp [h1]), if_pos h2]
        simp [h1, h2]
    · unfold MP4H264Video.encode
      rw [if_pos h1]
      simp [h1]
  · rintro ⟨h1, h2⟩
    rw [encode_valid_eq c a fps h1 h2]
    exact ⟨_, rfl⟩

/-- C3: on every valid input, `encode` opens the codec writer with the given
fps and frame size `(array.shape[2], array.shape[1])` on a temporary MP4
file, writes the `array.shape[0]` frames one at a time in increasing index
order, releases the writer, and returns exactly the bytes of the resulting
temporary file (read back through `read_from_file`). -/
theorem encode_algorithm (c : Codec) (a : NpArray) (fps : Rat)
    (h1 : a.dtype = Dtype.uint8) (h2 : a.ndim = 3 ∨ a.ndim = 4) :
    MP4H264Video.encode c a fps =
      (Except.ok (c.encodeVideo fps (a.shape.getD 2 0, a.shape.getD 1 0)
          (if a.ndim = 3 then false else true) a.framesOf),
       [Event.tmpdirCreated,
        Event.writerOpened fps (a.shape.getD 2 0, a.shape.getD 1 0)
          (if a.ndim = 3 then false else true)]
         ++ (List.range (a.shape.headD 0)).map (fun i => Event.frameWritten (a.frameAt i))
         ++ [Event.writerReleased, Event.fileOpenedRead tmpOutputPath]) := by
  rw [encode_valid_eq c a fps h1 h2]
  simp [NpArray.framesOf, NpArray.frameCount, List.map_map]

/-- Witness for C3: the full `encode` run at a concrete codec and a
concrete one-frame grayscale array, with the trace spelled out. -/
theorem encode_algorithm_witness :
    MP4H264Video.encode demoCodec w1Array 25 =
      (Except.ok [1, 10, 20, 30, 40],
       [Event.tmpdirCreated, Event.writerOpened 25 (2, 2) false,
        Event.frameWritten ⟨[2, 2], [10, 20, 30, 40]⟩,
        Event.writerReleased, Event.fileOpenedRead tmpOutputPath]) :=
  encode_algorithm demoCodec w1Array 25 rfl (Or.inl rfl)

/-- C4: writing the stored bytes to a `.mp4` path and reading that path back
returns bytes equal to the instance's data, over any starting filesystem. -/
theorem write_then_read_roundtrip (v : MP4H264Video) (fs : FS) (path : String)
    (h : pyEndsWith path ".mp4" = true) :
    (MP4H264Video.read_from_file (v.write_to_file fs path).1 path).1
      = Except.ok v.data := by
  simp [MP4H264Video.read_from_file, MP4H264Video.write_to_file, h]

/-- Witness for C4: the write/read round trip at a concrete instance, an
empty filesystem and the path "clip.mp4". -/
theorem write_then_read_roundtrip_witness :
    (MP4H264Video.read_from_file
        (demoVideo.write_to_file (fun _ => none) "clip.mp4").1 "clip.mp4").1
      = Except.ok [4, 5, 6] :=
  write_then_read_roundtrip demoVideo (fun _ => none) "clip.mp4" (by decide)

/-- C5: `decode` stages the stored bytes to a temporary MP4 file, collects
the codec's frames in the order read, and returns them stacked as one uint8
array; when `out` is provided (with the stacked array's shape — equal-shape
element-wise assignment is the modelled fragment of `out[...] = ret`),
`decode` fills `out` with the decoded data and returns `out` itself (the
returned flag marks that the result is the caller's buffer). -/
theorem decode_algorithm (c : Codec) (v : MP4H264Video) :
    (MP4H264Video.decode c v none =
      (Except.ok (npStack (c.decodeVideo v.data), false),
       [Event.tmpdirCreated, Event.fileOpenedWrite tmpInputPath,
        Event.fileOpenedRead tmpInputPath])) ∧
    (∀ o : NpArray, o.shape = (npStack (c.decodeVideo v.data)).shape →
      MP4H264Video.decode c v (some o) =
        (Except.ok (⟨o.dtype, o.shape, (npStack (c.decodeVideo v.data)).data⟩, true),
         [Event.tmpdirCreated, Event.fileOpenedWrite tmpInputPath,
          Event.fileOpenedRead tmpInputPath])) := by
  constructor
  · simp [MP4H264Video.decode, MP4H264Video.write_to_file]
  · intro o ho
    simp [MP4H264Video.decode, MP4H264Video.write_to_file, ho]

/-- C6: the constructor resolves its three data sources to one stored byte
stream: with `data_array` it stores `encode(data_array, fps)`, with
`data_file` it stores `read_from_file(data_file)`, and with `data` it
stores the bytes as passed. -/
theorem init_data_sources (c : Codec) (fs : FS) (name : String)
    (shape : List Nat) (fps : Rat) :
    (∀ a b, (MP4H264Video.encode c a fps).1 = Except.ok b →
      MP4H264Video.init c fs name shape fps none (some a) none =
        Except.ok ⟨name, shape, fps, b⟩) ∧
    (∀ f b, (MP4H264Video.read_from_file fs f).1 = Except.ok b →
      MP4H264Video.init c fs name shape fps none none (some f) =
        Except.ok ⟨name, shape, fps, b⟩) ∧
    (∀ d, MP4H264Video.init c fs name shape fps (some d) none none =
        Except.ok ⟨name, shape, fps, d⟩) := by
  refine ⟨?_, ?_, ?_⟩ <;> intros <;>
    simp [MP4H264Video.init, countProvided, *]

/-- C7: for every array failing the dtype or dimensionality check, `encode`
raises `ValueError` with an empty side-effect trace: no temporary directory
is created and the codec is never invoked (and `encode` writes no instance
attribute anywhere, so the instance's state is unchanged). -/
theorem encode_invalid_no_staging (c : Codec) (a : NpArray) (fps : Rat)
    (h : a.dtype ≠ Dtype.uint8 ∨ (a.ndim ≠ 3 ∧ a.ndim ≠ 4)) :
    (∃ e, (MP4H264Video.encode c a fps).1 = Except.error e) ∧
      (MP4H264Video.encode c a fps).2 = [] := by
  unfold MP4H264Video.encode
  rcases h with h | h
  · simp [h]
  · by_cases hd : a.dtype = Dtype.uint8 <;> simp [h, hd]

/-- Witness for C7: `encode` on a concrete float array errors with an empty
trace. -/
theorem encode_invalid_no_staging_witness :
    (∃ e, (MP4H264Video.encode cexCodec cexFloatArray 30).1 = Except.error e) ∧
      (MP4H264Video.encode cexCodec cexFloatArray 30).2 = [] :=
  encode_invalid_no_staging cexCodec cexFloatArray 30 (Or.inl (by decide))

/-- C8 (amended): the constructor raises its "exactly one of 'data',
'data_array', 'data_file'" `ValueError` if and only if the number of
non-None arguments among the three is not exactly one; with exactly one
provided, construction proceeds past this check (it may still raise a
`ValueError` propagated from `encode` or `read_from_file` — see the
counterexample). -/
theorem init_exactly_one_check (c : Codec) (fs : FS) (name : String)
    (shape : List Nat) (fps : Rat) (data : Option Bytes)
    (data_array : Option NpArray) (data_file : Option String) :
    MP4H264Video.init c fs name shape fps data data_array data_file =
        Except.error InitErr.exactlyOneRequired ↔
      countProvided data data_array data_file ≠ 1 := by
  unfold MP4H264Video.init
  by_cases hc : countProvided data data_array data_file = 1
  · rw [if_neg (by simp [hc])]
    simp only [hc, ne_eq, not_true_eq_false, iff_false]
    intro h
    rcases data_array with _ | a
    · rcases data_file with _ | f
      · rcases data with _ | d <;> simp at h
      · cases hr : (MP4H264Video.read_from_file fs f).1 <;> simp [hr] at h
    · cases he : (MP4H264Video.encode c a fps).1 with
      | error e => simp [he] at h
      | ok b =>
          rcases data_file with _ | f
          · simp [he] at h
          · cases hr : (MP4H264Video.read_from_file fs f).1 <;>
              simp [he, hr] at h
  · rw [if_pos hc]
    simp [hc]

/-- Counterexample to C8 as stated: with exactly one source provided (a
`data_array` of dtype float64) the constructor still raises a `ValueError`,
the one `encode`'s dtype check raises; so "raises `ValueError` iff the count
is not exactly one" fails in the right-to-left reading of its negation. -/
theorem init_error_with_one_source_cex :
    countProvided none (some cexFloatArray) none = 1 ∧
    MP4H264Video.init cexCodec (fun _ => none) "video" [1, 1, 1] 30
        none (some cexFloatArray) none
      = Except.error (InitErr.fromEncode VErr.dtypeNotUint8) := ⟨rfl, rfl⟩

/-- C9: the `.mp4` extension check is asymmetric: for every path not ending
in `.mp4`, `read_from_file` raises `ValueError` having opened no file, while
`write_to_file` only issues the suffix warning and still writes the
instance's data bytes to the path. -/
theorem mp4_extension_asymmetry (v : MP4H264Video) (fs : FS) (path : String)
    (h : pyEndsWith path ".mp4" = false) :
    MP4H264Video.read_from_file fs path = (Except.error (VErr.notMp4 path), []) ∧
    (v.write_to_file fs path).2 = [mp4SuffixWarning path] ∧
    (v.write_to_file fs path).1 path = some v.data := by
  simp [MP4H264Video.read_from_file, MP4H264Video.write_to_file, h]

/-- Witness for C9: the asymmetry at the concrete path "clip.avi". -/
theorem mp4_extension_asymmetry_witness :
    MP4H264Video.read_from_file (fun _ => none) "clip.avi"
        = (Except.error (VErr.notMp4 "clip.avi"), []) ∧
      (demoVideo.write_to_file (fun _ => none) "clip.avi").2
        = [mp4SuffixWarning "clip.avi"] ∧
      (demoVideo.write_to_file (fun _ => none) "clip.avi").1 "clip.avi" = some [4, 5, 6] :=
  mp4_extension_asymmetry demoVideo (fun _ => none) "clip.avi" (by decide)

/-- C10: on every valid input, `encode` opens exactly one codec writer, and
its color mode is color precisely when the array is 4-dimensional (grayscale
for every 3-dimensional array). -/
theorem encode_color_mode (c : Codec) (a : NpArray) (fps : Rat)
    (h1 : a.dtype = Dtype.uint8) (h2 : a.ndim = 3 ∨ a.ndim = 4) :
    (MP4H264Video.encode c a fps).2.filter Event.isWriterOpened
      = [Event.writerOpened fps (a.shape.getD 2 0, a.shape.getD 1 0)
          (decide (a.ndim = 4))] := by
  rw [encode_valid_eq c a fps h1 h2]
  have hmap : ∀ frames : List Frame,
      (frames.map Event.frameWritten).filter Event.isWriterOpened = [] := by
    intro frames
    induction frames with
    | nil => rfl
    | cons f l ih => simp [Event.isWriterOpened, ih]
  rcases h2 with h | h <;>
    simp [h, List.filter_append, hmap, Event.isWriterOpened]

/-- Witness for C10: the writer-opening event at a concrete 4-dimensional
array has the color mode set. -/
theorem encode_color_mode_witness :
    (MP4H264Video.encode demoCodec w4Array 30).2.filter Event.isWriterOpened
      = [Event.writerOpened 30 (1, 1) true] :=
  encode_color_mode demoCodec w4Array 30 rfl (Or.inr rfl)
